import Mathlib

/-!
Verification of the Ripple donation-platform backend (Python/FastAPI).
Shallow embedding of the authentication subsystem (`backend/auth.py`,
`backend/routers/auth.py`), the password-strength rules
(`backend/utils/validation.py`) and the donation status-update logic
(`backend/routers/donations.py`).

Modelling conventions:
- database tables become lists of records; `query(...).filter(...).first()`
  becomes `List.find?`;
- monetary `Decimal` amounts become `Int` (addition/subtraction on decimals
  is exact, so an integer model in fixed units is faithful);
- Python exceptions become `Except`; FastAPI `HTTPException` becomes the
  `HTTPError` record (status code plus detail message);
- wall-clock time is an integer number of seconds;
- the third-party `bcrypt` and `python-jose` libraries are modelled
  symbolically, faithful to their documented behaviour (noted at each
  definition).
-/

/-- `PaymentStatus` enum from `backend/models.py`. -/
inductive PaymentStatus where
  | pending
  | completed
  | failed
  | refunded
deriving DecidableEq, BEq, Repr

/-- `CampaignStatus` enum from `backend/models.py`. -/
inductive CampaignStatus where
  | draft
  | active
  | campaignCompleted
  | cancelled
deriving DecidableEq, BEq, Repr

/-- `User` model from `backend/models.py` (fields relevant to the core:
credentials, identity and the activity flag). -/
structure User where
  id : Nat
  email : String
  username : String
  hashed_password : String
  is_active : Bool
deriving DecidableEq, Repr

/-- `Campaign` model from `backend/models.py` (fields relevant to the
donation ledger). -/
structure Campaign where
  id : Nat
  creator_id : Nat
  current_amount : Int
  status : CampaignStatus
deriving DecidableEq, Repr

/-- `GiverProfile` model from `backend/models.py` (fields relevant to the
donation ledger: the 1:1 user link and the giving statistics). -/
structure GiverProfile where
  id : Nat
  user_id : Nat
  total_donated : Int
  donation_count : Int
deriving DecidableEq, Repr

/-- `Donation` model from `backend/models.py` (fields relevant to the
status-update logic). -/
structure Donation where
  id : Nat
  amount : Int
  campaign_id : Nat
  giver_id : Nat
  payment_status : PaymentStatus
  payment_intent_id : Option String
deriving DecidableEq, Repr

/-- The relational store: one list per table, plus autoincrement counters
for the two tables this core inserts into. -/
structure DB where
  users : List User
  campaigns : List Campaign
  giver_profiles : List GiverProfile
  donations : List Donation
  next_user_id : Nat
  next_giver_id : Nat
deriving DecidableEq, Repr

/-- FastAPI `HTTPException`: status code and detail message. -/
structure HTTPError where
  status : Nat
  detail : String
deriving DecidableEq, Repr

/- ===== Credential Vault: bcrypt model and password hashing
   (`backend/auth.py`, lines 37-76) ===== -/

/-- The version/cost prefix every hash produced by the model carries;
pyca/bcrypt emits hashes beginning with a recognised version tag. -/
def bcrypt_tag : String := "$2b$12$"

/-- Whether a stored string parses as a bcrypt hash: pyca/bcrypt accepts
only strings starting with a recognised version tag; anything else makes
`hashpw`/`checkpw` raise `ValueError("Invalid salt")`. -/
def bcrypt_well_formed (hashed : String) : Bool :=
  bcrypt_tag.data.isPrefixOf hashed.data

/-- Models `bcrypt.hashpw(password, bcrypt.gensalt())` symbolically: the
hash is a tagged, injective encoding of the password (one-wayness is not
modelled; the salt is fixed, which is sound because every claim here only
compares a candidate against a stored hash). -/
def bcrypt_hashpw (password : String) : String :=
  bcrypt_tag ++ password

/-- Models `bcrypt.checkpw(password, hashed)` from pyca/bcrypt: on a
well-formed bcrypt hash it returns the boolean comparison; on a malformed hash it
raises `ValueError("Invalid salt")` (it does not return `False`). -/
def bcrypt_checkpw (password : String) (hashed : String) : Except String Bool :=
  if bcrypt_well_formed hashed then
    .ok (hashed == bcrypt_hashpw password)
  else
    .error "Invalid salt"

/-- `hash_password` from `backend/auth.py` (lines 37-55). -/
def hash_password (password : String) : String :=
  bcrypt_hashpw password

/-- `verify_password` from `backend/auth.py` (lines 58-76): calls
`bcrypt.checkpw` directly, so any `ValueError` from a malformed stored
hash propagates to the caller. -/
def verify_password (plain_password : String) (hashed_password : String) :
    Except String Bool :=
  bcrypt_checkpw plain_password hashed_password

/- ===== Password strength rules (`backend/utils/validation.py`) ===== -/

/-- The fixed deny-list of common passwords from
`backend/utils/validation.py` (lines 47-51). -/
def common_passwords : List String :=
  [ "password", "password123", "12345678", "qwerty", "abc123"
  , "monkey", "1234567890", "letmein", "trustno1", "dragon"
  , "baseball", "iloveyou", "master", "sunshine", "ashley" ]

/-- `validate_password_strength` from `backend/utils/validation.py`
(lines 11-56): minimum length 8, at least one uppercase letter, one
lowercase letter and one digit, and not on the common-password deny-list
after lower-casing. Returns the first violated rule with its message. -/
def validate_password_strength (password : String) : Bool × String :=
  if password.length < 8 then
    (false, "Password must be at least 8 characters long")
  else if !(password.data.any Char.isUpper) then
    (false, "Password must contain at least one uppercase letter")
  else if !(password.data.any Char.isLower) then
    (false, "Password must contain at least one lowercase letter")
  else if !(password.data.any Char.isDigit) then
    (false, "Password must contain at least one number")
  else if common_passwords.contains (String.mk (password.data.map Char.toLower)) then
    (false, "Password is too common. Please choose a stronger password")
  else
    (true, "")

/- ===== Donation ledger (`backend/routers/donations.py`) ===== -/

/-- The row-level effect of `campaign.current_amount += donation.amount`
on the row with the donation's campaign id. -/
def bump_campaign (cid : Nat) (amt : Int) (c : Campaign) : Campaign :=
  if c.id == cid then { c with current_amount := c.current_amount + amt }
  else c

/-- The row-level effect of `giver_profile.total_donated += donation.amount;
giver_profile.donation_count += 1` on the row with the donation's giver
id. -/
def bump_giver (gid : Nat) (amt : Int) (g : GiverProfile) : GiverProfile :=
  if g.id == gid then
    { g with total_donated := g.total_donated + amt,
             donation_count := g.donation_count + 1 }
  else g

/-- First half of `_update_donation_aggregates`
(`backend/routers/donations.py` lines 325-328): look the campaign up and,
only when it exists (`if campaign:`), add the amount to its total; a
missing row is silently skipped. -/
def apply_campaign_aggregate (db : DB) (donation : Donation) : DB :=
  match db.campaigns.find? (fun c => c.id == donation.campaign_id) with
  | some _ =>
    { db with campaigns :=
        db.campaigns.map (bump_campaign donation.campaign_id donation.amount) }
  | none => db

/-- Second half of `_update_donation_aggregates`
(`backend/routers/donations.py` lines 330-334): look the giver profile up
and, only when it exists (`if giver_profile:`), add the amount to its
total and bump its count; a missing row is silently skipped. -/
def apply_giver_aggregate (db : DB) (donation : Donation) : DB :=
  match db.giver_profiles.find? (fun g => g.id == donation.giver_id) with
  | some _ =>
    { db with giver_profiles :=
        db.giver_profiles.map (bump_giver donation.giver_id donation.amount) }
  | none => db

/-- `_update_donation_aggregates` from `backend/routers/donations.py`
(lines 315-334): the campaign statement followed by the giver-profile
statement. -/
def update_donation_aggregates (db : DB) (donation : Donation) : DB :=
  apply_giver_aggregate (apply_campaign_aggregate db donation) donation

/-- Python truthiness of the optional `payment_intent_id` argument:
`if payment_intent_id:` skips both `None` and the empty string. -/
def pid_truthy (pid : Option String) : Bool :=
  match pid with
  | none => false
  | some s => s != ""

/-- The donation record after the unconditional field updates of
`update_donation_status` (lines 300-303). -/
def apply_status_update (d : Donation) (ps : PaymentStatus)
    (pid : Option String) : Donation :=
  let d1 := { d with payment_status := ps }
  if pid_truthy pid then
    match pid with
    | some s => { d1 with payment_intent_id := some s }
    | none => d1
  else d1

/-- `update_donation_status` from `backend/routers/donations.py`
(lines 241-312), the handler of `PATCH /donations/{id}/status`:
404 when the donation is missing; 403 unless the caller owns the giver
profile the donation references; then the requested status is written
unconditionally, and the aggregates are applied exactly when the old
status is not COMPLETED and the new one is. -/
def update_donation_status (db : DB) (donation_id : Nat)
    (payment_status : PaymentStatus) (payment_intent_id : Option String)
    (current_user : User) : Except HTTPError (DB × Donation) :=
  match db.donations.find? (fun d => d.id == donation_id) with
  | none => .error { status := 404, detail := "Donation not found" }
  | some donation =>
    match db.giver_profiles.find? (fun g => g.user_id == current_user.id) with
    | none =>
      .error { status := 403, detail := "Not authorized to update this donation" }
    | some giver_profile =>
      if giver_profile.id != donation.giver_id then
        .error { status := 403, detail := "Not authorized to update this donation" }
      else
        let old_status := donation.payment_status
        let donation1 := apply_status_update donation payment_status payment_intent_id
        let db1 : DB := { db with donations := db.donations.map (fun d =>
            if d.id == donation_id then
              apply_status_update d payment_status payment_intent_id
            else d) }
        let db2 :=
          if old_status != PaymentStatus.completed &&
             payment_status == PaymentStatus.completed then
            update_donation_aggregates db1 donation1
          else db1
        .ok (db2, donation1)

/- ===== Token Service (`backend/auth.py`, lines 28-30 and 79-107) ===== -/

/-- Default signing secret from `backend/auth.py` line 28. -/
def SECRET_KEY : String := "your-secret-key-change-this"

/-- Default token lifetime in minutes from `backend/auth.py` line 30. -/
def ACCESS_TOKEN_EXPIRE_MINUTES : Int := 30

/-- A JOSE JWT, modelled symbolically: a signed token carries its payload
(the optional sub claim and the exp claim, an absolute time in seconds)
together with the key that signed it; any other string presented as a
token is malformed. -/
inductive Jwt where
  | signed (sub : Option String) (exp : Int) (key : String)
  | malformed (raw : String)
deriving DecidableEq, Repr

/-- Models `jose.jwt.encode(payload, key, algorithm)`. -/
def jwt_encode (sub : Option String) (exp : Int) (key : String) : Jwt :=
  Jwt.signed sub exp key

/-- Models `jose.jwt.decode(token, key, algorithms)`: raises `JWTError`
when the signature does not verify or the token cannot be parsed, and
`ExpiredSignatureError` (a `JWTError` subclass) once the clock passes the
exp claim; python-jose rejects exactly when `now > exp` (zero leeway). -/
def jwt_decode (token : Jwt) (key : String) (now : Int) :
    Except Unit (Option String × Int) :=
  match token with
  | .malformed _ => .error ()
  | .signed sub exp k =>
    if k != key then .error ()
    else if now > exp then .error ()
    else .ok (sub, exp)

/-- Python truthiness of the optional `expires_delta` argument:
`if expires_delta:` treats both `None` and the zero duration
`timedelta(0)` as falsy. -/
def delta_truthy (expires_delta : Option Int) : Bool :=
  match expires_delta with
  | none => false
  | some d => d != 0

/-- `create_access_token` from `backend/auth.py` (lines 79-107): embeds
the sub claim of the data and an absolute expiry: now plus the supplied
delta when `if expires_delta:` is truthy, and now plus the configured
default when the delta is omitted or is the (falsy) zero duration; then
signs with the secret. -/
def create_access_token (data_sub : Option String) (expires_delta : Option Int)
    (now : Int) : Jwt :=
  let expire : Int :=
    if delta_truthy expires_delta then
      match expires_delta with
      | some d => now + d
      | none => now + ACCESS_TOKEN_EXPIRE_MINUTES * 60
    else
      now + ACCESS_TOKEN_EXPIRE_MINUTES * 60
  jwt_encode data_sub expire SECRET_KEY

/- ===== Authenticator (`backend/auth.py`, lines 110-231, and
`backend/routers/auth.py`) ===== -/

/-- `get_user_by_username` from `backend/auth.py` (lines 110-121). -/
def get_user_by_username (db : DB) (username : String) : Option User :=
  db.users.find? (fun u => u.username == username)

/-- `get_user_by_email` from `backend/auth.py` (lines 124-135). -/
def get_user_by_email (db : DB) (email : String) : Option User :=
  db.users.find? (fun u => u.email == email)

/-- The identifier resolution of `authenticate_user`
(`backend/auth.py` lines 157-162): lookup by username first, then by
email. -/
def find_user_by_username_or_email (db : DB) (identifier : String) :
    Option User :=
  match get_user_by_username db identifier with
  | some u => some u
  | none => get_user_by_email db identifier

/-- `authenticate_user` from `backend/auth.py` (lines 138-168): resolve
the identifier, then compare the password; returns `none` both when no
user matches and when the password comparison fails; a `ValueError`
raised by bcrypt on a malformed stored hash propagates (the
`Except String` layer). The function never consults `is_active`. -/
def authenticate_user (db : DB) (username : String) (password : String) :
    Except String (Option User) :=
  match find_user_by_username_or_email db username with
  | none => .ok none
  | some u =>
    match verify_password password u.hashed_password with
    | .error e => .error e
    | .ok b => if b then .ok (some u) else .ok none

/-- The uniform 401 raised by `get_current_user`
(`backend/auth.py` lines 197-201). -/
def credentials_exception : HTTPError :=
  { status := 401, detail := "Could not validate credentials" }

/-- The token-validation fragment of `get_current_user`
(`backend/auth.py` lines 203-215): decode the bearer token, then read its
sub claim; every `JWTError` and a missing subject map to the same uniform
401. -/
def decode_token_subject (token : Jwt) (now : Int) : Except HTTPError String :=
  match jwt_decode token SECRET_KEY now with
  | .error _ => .error credentials_exception
  | .ok (sub, _) =>
    match sub with
    | none => .error credentials_exception
    | some username => .ok username

/-- `get_current_user` from `backend/auth.py` (lines 171-231): validate
the token, resolve the subject to a user row (401 when absent), then
reject inactive accounts with a distinct 403. -/
def get_current_user (db : DB) (token : Jwt) (now : Int) :
    Except HTTPError User :=
  match decode_token_subject token now with
  | .error e => .error e
  | .ok username =>
    match get_user_by_username db username with
    | none => .error credentials_exception
    | some user =>
      if !user.is_active then
        .error { status := 403, detail := "User account is inactive" }
      else
        .ok user

/-- The `login` handler of `POST /auth/login` from
`backend/routers/auth.py` (lines 119-170): a `None` from
`authenticate_user` becomes the single 401 with its fixed message; an
unhandled `ValueError` from bcrypt would surface as a 500; otherwise a
token carrying the username is minted with the configured lifetime. The
handler never consults `is_active`. -/
def login (db : DB) (form_username : String) (form_password : String)
    (now : Int) : Except HTTPError Jwt :=
  match authenticate_user db form_username form_password with
  | .error e => .error { status := 500, detail := e }
  | .ok none =>
    .error { status := 401, detail := "Incorrect username or password" }
  | .ok (some user) =>
    .ok (create_access_token (some user.username)
          (some (ACCESS_TOKEN_EXPIRE_MINUTES * 60)) now)

/-- `UserCreate` request schema from `backend/schemas.py` (lines 18-38). -/
structure UserCreate where
  email : String
  username : String
  password : String
  full_name : Option String
deriving DecidableEq, Repr

/-- The `register_user` handler of `POST /auth/register` from
`backend/routers/auth.py` (lines 44-116), entered after schema
validation: username uniqueness is checked first, then email uniqueness,
each with its own 400 message; on success the user row and its giver
profile are created together. The handler performs no password check of
its own beyond hashing. -/
def register_user (db : DB) (user_data : UserCreate) :
    Except HTTPError (DB × User) :=
  match get_user_by_username db user_data.username with
  | some _ => .error { status := 400, detail := "Username already registered" }
  | none =>
  match get_user_by_email db user_data.email with
  | some _ => .error { status := 400, detail := "Email already registered" }
  | none =>
    let new_user : User :=
      { id := db.next_user_id
      , email := user_data.email
      , username := user_data.username
      , hashed_password := hash_password user_data.password
      , is_active := true }
    let giver_profile : GiverProfile :=
      { id := db.next_giver_id
      , user_id := new_user.id
      , total_donated := 0
      , donation_count := 0 }
    let db1 : DB :=
      { db with
          users := db.users ++ [new_user],
          giver_profiles := db.giver_profiles ++ [giver_profile],
          next_user_id := db.next_user_id + 1,
          next_giver_id := db.next_giver_id + 1 }
    .ok (db1, new_user)

/-- The declared constraints of the `UserCreate` schema
(`backend/schemas.py` lines 24-27) that FastAPI enforces before the
handler runs: username length 3..50 and password minimum length 8. The
schema has no other password validator. Email format checking
(`EmailStr`) is an external validator and is taken as a parameter. -/
def userCreate_schema_ok (emailValid : String → Bool) (ud : UserCreate) : Bool :=
  emailValid ud.email &&
  decide (3 ≤ ud.username.length) && decide (ud.username.length ≤ 50) &&
  decide (8 ≤ ud.password.length)

/-- `POST /auth/register` as seen by a client: pydantic validation of the
`UserCreate` schema (HTTP 422 on failure) followed by the `register_user`
handler. -/
def register_endpoint (emailValid : String → Bool) (db : DB)
    (ud : UserCreate) : Except HTTPError (DB × User) :=
  if userCreate_schema_ok emailValid ud then register_user db ud
  else .error { status := 422, detail := "Validation error" }

/- ===== Result extraction helpers and concrete fixtures ===== -/

/-- Whether an operation returned without raising. -/
def is_ok {e a : Type} (r : Except e a) : Bool :=
  match r with
  | .ok _ => true
  | .error _ => false

/-- The state after a donation status-update call, when it succeeded. -/
def result_state (r : Except HTTPError (DB × Donation)) : Option DB :=
  match r with
  | .ok (db, _) => some db
  | .error _ => none

/-- The raised amount of the campaign with the given id, if present. -/
def campaign_amount (db : DB) (cid : Nat) : Option Int :=
  (db.campaigns.find? (fun c => c.id == cid)).map Campaign.current_amount

/-- The lifetime total of the giver profile with the given id. -/
def giver_total (db : DB) (gid : Nat) : Option Int :=
  (db.giver_profiles.find? (fun g => g.id == gid)).map GiverProfile.total_donated

/-- The donation count of the giver profile with the given id. -/
def giver_count (db : DB) (gid : Nat) : Option Int :=
  (db.giver_profiles.find? (fun g => g.id == gid)).map GiverProfile.donation_count

/-- The stored status of the donation with the given id. -/
def donation_status (db : DB) (did : Nat) : Option PaymentStatus :=
  (db.donations.find? (fun d => d.id == did)).map Donation.payment_status

/-- Fixture: the donor account (id 1, active). -/
def alice : User :=
  { id := 1, email := "alice@example.com", username := "alice",
    hashed_password := hash_password "Secret123", is_active := true }

/-- Fixture: a giver profile for alice with the given statistics. -/
def giver1 (total : Int) (count : Int) : GiverProfile :=
  { id := 1, user_id := 1, total_donated := total, donation_count := count }

/-- Fixture: an active campaign (id 1) with the given raised amount. -/
def campaign1 (amt : Int) : Campaign :=
  { id := 1, creator_id := 2, current_amount := amt,
    status := CampaignStatus.active }

/-- Fixture: donation 1 of amount 50 by giver 1 to campaign 1, in the
given status. -/
def donation1 (ps : PaymentStatus) : Donation :=
  { id := 1, amount := 50, campaign_id := 1, giver_id := 1,
    payment_status := ps, payment_intent_id := none }

/-- Fixture store builder around alice. -/
def mkdb (cs : List Campaign) (gs : List GiverProfile) (ds : List Donation) :
    DB :=
  { users := [alice], campaigns := cs, giver_profiles := gs, donations := ds,
    next_user_id := 2, next_giver_id := 2 }

/-- Fixture: a suspended account (id 3, `is_active = false`) whose
password is Secret123. -/
def bob : User :=
  { id := 3, email := "bob@example.com", username := "bob",
    hashed_password := hash_password "Secret123", is_active := false }

/-- Fixture: a store containing only the suspended account bob. -/
def dbBob : DB :=
  { users := [bob], campaigns := [], giver_profiles := [], donations := [],
    next_user_id := 4, next_giver_id := 4 }

/-- Fixture: a completely empty store. -/
def empty_db : DB :=
  { users := [], campaigns := [], giver_profiles := [], donations := [],
    next_user_id := 1, next_giver_id := 1 }

/-- An email-format validator that accepts everything, used to instantiate
the `EmailStr` parameter on concrete runs. -/
def accept_any_email : String → Bool := fun _ => true

/-- One `PATCH /donations/1/status` call by alice, keeping only the
resulting store. -/
def patch_status (db : DB) (ps : PaymentStatus) : Except HTTPError DB :=
  match update_donation_status db 1 ps none alice with
  | .ok (db2, _) => .ok db2
  | .error e => .error e

/-- The store that starts the duplicate-completion scenario: fresh
aggregates, one PENDING donation of 50. -/
def c3_db : DB := mkdb [campaign1 0] [giver1 0 0] [donation1 PaymentStatus.pending]

/-- The scenario COMPLETED, then FAILED, then COMPLETED again, applied to
the same donation. -/
def c3_chain : Except HTTPError DB :=
  match patch_status c3_db PaymentStatus.completed with
  | .error e => .error e
  | .ok db1 =>
    match patch_status db1 PaymentStatus.failed with
    | .error e => .error e
    | .ok db2 => patch_status db2 PaymentStatus.completed

/- ===== General lemmas about the embedding ===== -/

theorem find?_map_comm {a : Type} (l : List a) (p : a → Bool) (f : a → a)
    (hf : ∀ x, p (f x) = p x) :
    (l.map f).find? p = (l.find? p).map f := by
  induction l with
  | nil => rfl
  | cons x t ih =>
    simp only [List.map_cons, List.find?, hf x]
    cases hpx : p x
    · simpa using ih
    · simp

theorem bump_campaign_pred (cid : Nat) (amt : Int) (c : Campaign) :
    ((bump_campaign cid amt c).id == cid) = (c.id == cid) := by
  unfold bump_campaign
  split <;> rfl

theorem bump_giver_pred (gid : Nat) (amt : Int) (g : GiverProfile) :
    ((bump_giver gid amt g).id == gid) = (g.id == gid) := by
  unfold bump_giver
  split <;> rfl

theorem bump_campaign_hit (cid : Nat) (amt : Int) (c : Campaign)
    (h : (c.id == cid) = true) :
    bump_campaign cid amt c =
      { c with current_amount := c.current_amount + amt } := by
  unfold bump_campaign
  simp [h]

theorem bump_giver_hit (gid : Nat) (amt : Int) (g : GiverProfile)
    (h : (g.id == gid) = true) :
    bump_giver gid amt g =
      { g with total_donated := g.total_donated + amt,
               donation_count := g.donation_count + 1 } := by
  unfold bump_giver
  simp [h]

theorem apply_status_update_id (d : Donation) (ps : PaymentStatus)
    (pid : Option String) : (apply_status_update d ps pid).id = d.id := by
  unfold apply_status_update
  cases pid with
  | none => rfl
  | some s => by_cases h : s = "" <;> simp [pid_truthy, h]

theorem apply_status_update_amount (d : Donation) (ps : PaymentStatus)
    (pid : Option String) : (apply_status_update d ps pid).amount = d.amount := by
  unfold apply_status_update
  cases pid with
  | none => rfl
  | some s => by_cases h : s = "" <;> simp [pid_truthy, h]

theorem apply_status_update_campaign_id (d : Donation) (ps : PaymentStatus)
    (pid : Option String) :
    (apply_status_update d ps pid).campaign_id = d.campaign_id := by
  unfold apply_status_update
  cases pid with
  | none => rfl
  | some s => by_cases h : s = "" <;> simp [pid_truthy, h]

theorem apply_status_update_giver_id (d : Donation) (ps : PaymentStatus)
    (pid : Option String) :
    (apply_status_update d ps pid).giver_id = d.giver_id := by
  unfold apply_status_update
  cases pid with
  | none => rfl
  | some s => by_cases h : s = "" <;> simp [pid_truthy, h]

theorem apply_status_update_status (d : Donation) (ps : PaymentStatus)
    (pid : Option String) :
    (apply_status_update d ps pid).payment_status = ps := by
  unfold apply_status_update
  cases pid with
  | none => rfl
  | some s => by_cases h : s = "" <;> simp [pid_truthy, h]

theorem apply_campaign_aggregate_found (db : DB) (don : Donation)
    (c : Campaign)
    (hc : db.campaigns.find? (fun x => x.id == don.campaign_id) = some c) :
    apply_campaign_aggregate db don =
      { db with campaigns :=
          db.campaigns.map (bump_campaign don.campaign_id don.amount) } := by
  unfold apply_campaign_aggregate
  rw [hc]

theorem apply_campaign_aggregate_missing (db : DB) (don : Donation)
    (hc : db.campaigns.find? (fun x => x.id == don.campaign_id) = none) :
    apply_campaign_aggregate db don = db := by
  unfold apply_campaign_aggregate
  rw [hc]

theorem apply_giver_aggregate_found (db : DB) (don : Donation)
    (g : GiverProfile)
    (hg : db.giver_profiles.find? (fun x => x.id == don.giver_id) = some g) :
    apply_giver_aggregate db don =
      { db with giver_profiles :=
          db.giver_profiles.map (bump_giver don.giver_id don.amount) } := by
  unfold apply_giver_aggregate
  rw [hg]

theorem apply_giver_aggregate_missing (db : DB) (don : Donation)
    (hg : db.giver_profiles.find? (fun x => x.id == don.giver_id) = none) :
    apply_giver_aggregate db don = db := by
  unfold apply_giver_aggregate
  rw [hg]

theorem apply_giver_aggregate_campaigns (db : DB) (don : Donation) :
    (apply_giver_aggregate db don).campaigns = db.campaigns := by
  unfold apply_giver_aggregate
  split <;> rfl

theorem apply_campaign_aggregate_giver_profiles (db : DB) (don : Donation) :
    (apply_campaign_aggregate db don).giver_profiles = db.giver_profiles := by
  unfold apply_campaign_aggregate
  split <;> rfl

/-- The success path of `update_donation_status`: when the donation exists
and the caller is its authorized donor, the requested status is written
unconditionally and the aggregate update runs exactly under the
completion guard. -/
theorem update_donation_status_authorized (db : DB) (did : Nat)
    (ps : PaymentStatus) (pid : Option String) (u : User) (d : Donation)
    (gp : GiverProfile)
    (hd : db.donations.find? (fun x => x.id == did) = some d)
    (hg : db.giver_profiles.find? (fun g => g.user_id == u.id) = some gp)
    (hauth : gp.id = d.giver_id) :
    update_donation_status db did ps pid u =
      .ok ( (if d.payment_status != PaymentStatus.completed &&
                ps == PaymentStatus.completed then
              update_donation_aggregates
                { db with donations := db.donations.map (fun x =>
                    if x.id == did then apply_status_update x ps pid else x) }
                (apply_status_update d ps pid)
            else
              { db with donations := db.donations.map (fun x =>
                  if x.id == did then apply_status_update x ps pid else x) }),
        apply_status_update d ps pid) := by
  unfold update_donation_status
  rw [hd, hg]
  simp [hauth]

/-- Success path with the completion guard true: the aggregates run. -/
theorem update_donation_status_completes (db : DB) (did : Nat)
    (ps : PaymentStatus) (pid : Option String) (u : User) (d : Donation)
    (gp : GiverProfile)
    (hd : db.donations.find? (fun x => x.id == did) = some d)
    (hg : db.giver_profiles.find? (fun g => g.user_id == u.id) = some gp)
    (hauth : gp.id = d.giver_id)
    (hguard : (d.payment_status != PaymentStatus.completed &&
      (ps == PaymentStatus.completed)) = true) :
    update_donation_status db did ps pid u =
      .ok (update_donation_aggregates
            { db with donations := db.donations.map (fun x =>
                if x.id == did then apply_status_update x ps pid else x) }
            (apply_status_update d ps pid),
        apply_status_update d ps pid) := by
  have hb := update_donation_status_authorized db did ps pid u d gp hd hg hauth
  rw [hguard] at hb
  simpa using hb

/-- Success path with the completion guard false: only the donation row
changes. -/
theorem update_donation_status_no_aggregates (db : DB) (did : Nat)
    (ps : PaymentStatus) (pid : Option String) (u : User) (d : Donation)
    (gp : GiverProfile)
    (hd : db.donations.find? (fun x => x.id == did) = some d)
    (hg : db.giver_profiles.find? (fun g => g.user_id == u.id) = some gp)
    (hauth : gp.id = d.giver_id)
    (hguard : (d.payment_status != PaymentStatus.completed &&
      (ps == PaymentStatus.completed)) = false) :
    update_donation_status db did ps pid u =
      .ok ({ db with donations := db.donations.map (fun x =>
              if x.id == did then apply_status_update x ps pid else x) },
        apply_status_update d ps pid) := by
  have hb := update_donation_status_authorized db did ps pid u d gp hd hg hauth
  rw [hguard] at hb
  simpa using hb

/-- The aggregate totals after `_update_donation_aggregates` when both
rows exist. -/
theorem update_donation_aggregates_amounts (db : DB) (don : Donation)
    (c : Campaign) (g : GiverProfile)
    (hc : db.campaigns.find? (fun x => x.id == don.campaign_id) = some c)
    (hg : db.giver_profiles.find? (fun x => x.id == don.giver_id) = some g) :
    campaign_amount (update_donation_aggregates db don) don.campaign_id
      = some (c.current_amount + don.amount) ∧
    giver_total (update_donation_aggregates db don) don.giver_id
      = some (g.total_donated + don.amount) ∧
    giver_count (update_donation_aggregates db don) don.giver_id
      = some (g.donation_count + 1) := by
  have hstep1 := apply_campaign_aggregate_found db don c hc
  have hg1 : (({ db with
        campaigns := db.campaigns.map
          (bump_campaign don.campaign_id don.amount) } : DB).giver_profiles).find?
      (fun x => x.id == don.giver_id) = some g := hg
  have hstep2 := apply_giver_aggregate_found _ don g hg1
  have hcp : (c.id == don.campaign_id) = true := by
    have h2 := List.find?_some hc
    exact h2
  have hgp : (g.id == don.giver_id) = true := by
    have h2 := List.find?_some hg
    exact h2
  unfold update_donation_aggregates
  rw [hstep1, hstep2]
  refine ⟨?_, ?_, ?_⟩
  · unfold campaign_amount
    show ((db.campaigns.map (bump_campaign don.campaign_id don.amount)).find?
      (fun x => x.id == don.campaign_id)).map Campaign.current_amount = _
    rw [find?_map_comm _ _ _ (bump_campaign_pred don.campaign_id don.amount), hc]
    simp [bump_campaign_hit don.campaign_id don.amount c hcp]
  · unfold giver_total
    show ((db.giver_profiles.map (bump_giver don.giver_id don.amount)).find?
      (fun x => x.id == don.giver_id)).map GiverProfile.total_donated = _
    rw [find?_map_comm _ _ _ (bump_giver_pred don.giver_id don.amount), hg]
    simp [bump_giver_hit don.giver_id don.amount g hgp]
  · unfold giver_count
    show ((db.giver_profiles.map (bump_giver don.giver_id don.amount)).find?
      (fun x => x.id == don.giver_id)).map GiverProfile.donation_count = _
    rw [find?_map_comm _ _ _ (bump_giver_pred don.giver_id don.amount), hg]
    simp [bump_giver_hit don.giver_id don.amount g hgp]

/- ===== Claim theorems ===== -/

/-- C7 counterexample: a token issued with ttl = 0 (a falsy
`timedelta(0)`) does not embed the expiry now + ttl: at time 1, past
now + ttl = 0, validation still succeeds and returns the subject, because
`if expires_delta:` fell back to the default 30-minute lifetime. -/
theorem C7_counterexample :
    decode_token_subject (create_access_token (some "alice") (some 0) 0) 1
      = .ok "alice" := by
  rfl

/-- C7 (amended): validating a token immediately after issuance yields
the same subject, and validation fails with the one uniform credentials
error for a wrong signing key, a malformed token, or once the clock
passes the embedded expiry. The embedded expiry is now + ttl only for a
truthy (nonzero) ttl; a zero ttl is falsy in `if expires_delta:` and, like
an omitted one, embeds the default 30-minute expiry instead, so such a
token outlives now + ttl and is rejected only past now + 1800. -/
theorem C7_amended :
    (∀ (subject : String) (ttl now : Int), 0 ≤ ttl →
      decode_token_subject (create_access_token (some subject) (some ttl) now)
        now = .ok subject) ∧
    (∀ (subject : String) (ttl now now2 : Int), ttl ≠ 0 → now + ttl < now2 →
      decode_token_subject (create_access_token (some subject) (some ttl) now)
        now2 = .error credentials_exception) ∧
    (∀ (subject : String) (now now2 : Int),
      now + ACCESS_TOKEN_EXPIRE_MINUTES * 60 < now2 →
      decode_token_subject (create_access_token (some subject) (some 0) now)
        now2 = .error credentials_exception) ∧
    (∀ (sub : Option String) (exp now : Int) (k : String), k ≠ SECRET_KEY →
      decode_token_subject (Jwt.signed sub exp k) now =
        .error credentials_exception) ∧
    (∀ (raw : String) (now : Int),
      decode_token_subject (Jwt.malformed raw) now =
        .error credentials_exception) := by
  refine ⟨?_, ?_, ?_, ?_, ?_⟩
  · intro subject ttl now h
    by_cases h0 : ttl = 0
    · subst h0
      have e : ACCESS_TOKEN_EXPIRE_MINUTES * 60 = (1800 : Int) := by decide
      have h2 : ¬ (now > now + ACCESS_TOKEN_EXPIRE_MINUTES * 60) := by
        rw [e]
        omega
      simp [decode_token_subject, create_access_token, jwt_encode, jwt_decode,
        delta_truthy, h2]
    · have ht : (ttl != 0) = true := by simpa using h0
      have h2 : ¬ (now > now + ttl) := by omega
      simp [decode_token_subject, create_access_token, jwt_encode, jwt_decode,
        delta_truthy, ht, h2]
  · intro subject ttl now now2 h0 h
    have ht : (ttl != 0) = true := by simpa using h0
    have h2 : now2 > now + ttl := h
    simp [decode_token_subject, create_access_token, jwt_encode, jwt_decode,
      delta_truthy, ht, h2]
  · intro subject now now2 h
    have h2 : now2 > now + ACCESS_TOKEN_EXPIRE_MINUTES * 60 := h
    simp [decode_token_subject, create_access_token, jwt_encode, jwt_decode,
      delta_truthy, h2]
  · intro sub exp now k h
    have h2 : (k != SECRET_KEY) = true := by simpa using h
    simp [decode_token_subject, jwt_decode, h2]
  · intro raw now
    rfl

/-- C7 witness: the concrete round-trip for alice with a truthy
30-minute ttl issued at time 0, its expiry at 1801; a zero-ttl token also
expiring only at 1801; plus a wrong-key token and a malformed token. -/
theorem C7_amended_witness :
    decode_token_subject (create_access_token (some "alice") (some 1800) 0) 0
      = .ok "alice" ∧
    decode_token_subject (create_access_token (some "alice") (some 1800) 0)
      1801 = .error credentials_exception ∧
    decode_token_subject (create_access_token (some "alice") (some 0) 0) 1801
      = .error credentials_exception ∧
    decode_token_subject (Jwt.signed (some "alice") 1800 "other-key") 0
      = .error credentials_exception ∧
    decode_token_subject (Jwt.malformed "garbage") 0
      = .error credentials_exception :=
  ⟨C7_amended.1 "alice" 1800 0 (by decide),
   C7_amended.2.1 "alice" 1800 0 1801 (by decide) (by decide),
   C7_amended.2.2.1 "alice" 0 1801 (by decide),
   C7_amended.2.2.2.1 (some "alice") 1800 0 "other-key" (by decide),
   C7_amended.2.2.2.2 "garbage" 0⟩

/-- C8: login failure is uniform: whether the identifier matches no
username and no email, or the identifier resolves to a user whose stored
password comparison fails, `login` fails with the identical error kind
and message (HTTP 401, Incorrect username or password). -/
theorem C8_uniform_auth_failure :
    (∀ (db : DB) (identifier password : String) (now : Int),
      find_user_by_username_or_email db identifier = none →
      login db identifier password now =
        .error { status := 401, detail := "Incorrect username or password" }) ∧
    (∀ (db : DB) (identifier password : String) (now : Int) (u : User),
      find_user_by_username_or_email db identifier = some u →
      verify_password password u.hashed_password = .ok false →
      login db identifier password now =
        .error { status := 401, detail := "Incorrect username or password" }) := by
  constructor
  · intro db identifier password now h
    unfold login authenticate_user
    rw [h]
  · intro db identifier password now u h hpw
    unfold login authenticate_user
    rw [h]
    simp [hpw]

/-- C8 witness: on a store holding only the account alice, a login with a
wrong password for alice and a login for a missing identifier produce the
same 401 error value. -/
theorem C8_uniform_auth_failure_witness :
    login (mkdb [] [] []) "nosuchuser" "AnyPassword" 0 =
      .error { status := 401, detail := "Incorrect username or password" } ∧
    login (mkdb [] [] []) "alice" "WrongPassword" 0 =
      .error { status := 401, detail := "Incorrect username or password" } :=
  ⟨C8_uniform_auth_failure.1 (mkdb [] [] []) "nosuchuser" "AnyPassword" 0
    (by rfl),
   C8_uniform_auth_failure.2 (mkdb [] [] []) "alice" "WrongPassword" 0 alice
    (by rfl) (by rfl)⟩

/-- C9 counterexample: `verify_password` applied to a malformed,
non-bcrypt stored hash value raises `ValueError` (the claim says it
returns `false` and never throws). -/
theorem C9_counterexample :
    verify_password "anything" "notahash" = .error "Invalid salt" := by
  rfl

/-- C9 (amended): `verify_password` returns `false` without throwing for
a mismatched password whenever the stored value is a well-formed bcrypt
hash; for a malformed or non-bcrypt stored value it raises `ValueError`
instead of returning `false`. -/
theorem C9_amended :
    (∀ (p h : String), bcrypt_well_formed h = true → h ≠ hash_password p →
      verify_password p h = .ok false) ∧
    (∀ (p h : String), bcrypt_well_formed h = false →
      verify_password p h = .error "Invalid salt") := by
  constructor
  · intro p h hwf hne
    have hb : (h == bcrypt_hashpw p) = false := by
      simpa [hash_password] using hne
    simp [verify_password, bcrypt_checkpw, hwf, hb]
  · intro p h hwf
    simp [verify_password, bcrypt_checkpw, hwf]

/-- C9 witness: a wrong password against a stored well-formed hash yields
`ok false`; a second malformed stored value yields the error. -/
theorem C9_amended_witness :
    verify_password "WrongPass" (hash_password "Right123") = .ok false ∧
    verify_password "WrongPass" "plaintext-left-in-db" =
      .error "Invalid salt" :=
  ⟨C9_amended.1 "WrongPass" (hash_password "Right123") (by decide) (by decide),
   C9_amended.2 "WrongPass" "plaintext-left-in-db" (by decide)⟩

/-- C10: a correctly signed, unexpired token whose subject resolves to an
existing user with `is_active = false` is rejected by `get_current_user`
with the distinct 403 inactive-account error, not the generic 401
credentials error. -/
theorem C10_inactive_token_rejected (db : DB) (username : String)
    (exp now : Int) (u : User)
    (hexp : ¬ now > exp)
    (hu : get_user_by_username db username = some u)
    (hinact : u.is_active = false) :
    get_current_user db (Jwt.signed (some username) exp SECRET_KEY) now =
      .error { status := 403, detail := "User account is inactive" } ∧
    ({ status := 403, detail := "User account is inactive" } : HTTPError)
      ≠ credentials_exception := by
  constructor
  · unfold get_current_user decode_token_subject jwt_decode
    simp only [bne_self_eq_false, Bool.false_eq_true, if_false,
      if_neg hexp]
    rw [hu]
    simp [hinact]
  · decide

/-- C10 witness: the store holding the suspended account bob rejects a
valid unexpired token for bob with the 403 inactive error. -/
theorem C10_inactive_token_rejected_witness :
    get_current_user dbBob (Jwt.signed (some "bob") 1800 SECRET_KEY) 0 =
      .error { status := 403, detail := "User account is inactive" } :=
  (C10_inactive_token_rejected dbBob "bob" 1800 0 bob (by decide) (by rfl)
    (by rfl)).1

/-- C4 counterexample: bob is inactive, yet `login` with bob's correct
identifier and password succeeds and issues a session token — it does not
fail with an inactive-account error. -/
theorem C4_counterexample :
    bob.is_active = false ∧
    login dbBob "bob" "Secret123" 0 =
      .ok (Jwt.signed (some "bob") 1800 SECRET_KEY) := by
  constructor
  · rfl
  · rfl

/-- C4 (amended): `login` never consults `is_active`: for every store and
every identity that resolves with a matching password, even one with
`is_active = false`, login succeeds and issues a token for the username;
the inactive-account rejection (403) happens only later, at token
validation time, in `get_current_user`. -/
theorem C4_amended (db : DB) (identifier password : String) (now : Int)
    (u : User)
    (hu : find_user_by_username_or_email db identifier = some u)
    (hpw : verify_password password u.hashed_password = .ok true)
    (_hinact : u.is_active = false) :
    login db identifier password now =
      .ok (Jwt.signed (some u.username)
        (now + ACCESS_TOKEN_EXPIRE_MINUTES * 60) SECRET_KEY) := by
  unfold login authenticate_user
  rw [hu]
  simp [hpw, create_access_token, jwt_encode]

/-- C4 witness: the concrete inactive account bob logs in successfully at
time 0. -/
theorem C4_amended_witness :
    login dbBob "bob" "Secret123" 0 =
      .ok (Jwt.signed (some "bob") (0 + ACCESS_TOKEN_EXPIRE_MINUTES * 60)
        SECRET_KEY) :=
  C4_amended dbBob "bob" "Secret123" 0 bob (by rfl) (by rfl) (by rfl)

/-- C1 counterexample: a second COMPLETED request on an already-COMPLETED
donation succeeds (HTTP 200) instead of failing with an invalid-transition
error, and a transition out of the terminal FAILED state also succeeds. -/
theorem C1_counterexample :
    is_ok (update_donation_status
      (mkdb [campaign1 50] [giver1 50 1] [donation1 PaymentStatus.completed])
      1 PaymentStatus.completed none alice) = true ∧
    is_ok (update_donation_status
      (mkdb [campaign1 0] [giver1 0 0] [donation1 PaymentStatus.failed])
      1 PaymentStatus.completed none alice) = true := by
  constructor
  · decide
  · decide

/-- C1 (amended): `update_donation_status` performs no transition-graph
validation at all: for every store, every stored status and every
requested status, once the donation exists and the caller is its
authorized donor the call succeeds and writes the requested status; no
invalid-transition error exists in the handler. -/
theorem C1_amended (db : DB) (did : Nat) (ps : PaymentStatus)
    (pid : Option String) (u : User) (d : Donation) (gp : GiverProfile)
    (hd : db.donations.find? (fun x => x.id == did) = some d)
    (hg : db.giver_profiles.find? (fun g => g.user_id == u.id) = some gp)
    (hauth : gp.id = d.giver_id) :
    ∃ db2 d1, update_donation_status db did ps pid u = .ok (db2, d1) ∧
      d1.payment_status = ps :=
  ⟨_, _, update_donation_status_authorized db did ps pid u d gp hd hg hauth,
   apply_status_update_status d ps pid⟩

/-- C1 witness: on a concrete store the forbidden REFUNDED→PENDING
request succeeds with the status written. -/
theorem C1_amended_witness :
    is_ok (update_donation_status
      (mkdb [campaign1 0] [giver1 0 0] [donation1 PaymentStatus.refunded])
      1 PaymentStatus.pending none alice) = true := by
  obtain ⟨db2, d1, heq, -⟩ :=
    C1_amended (mkdb [campaign1 0] [giver1 0 0] [donation1 PaymentStatus.refunded])
      1 PaymentStatus.pending none alice (donation1 PaymentStatus.refunded)
      (giver1 0 0) (by rfl) (by rfl) rfl
  rw [heq]
  rfl

/-- C2 counterexample: refunding a COMPLETED donation of 50 leaves
`campaign.current_amount`, `giver.total_donated` and
`giver.donation_count` at 50, 50 and 1 — nothing is subtracted, the
aggregates do not return to their pre-completion values. -/
theorem C2_counterexample :
    donation_status
      (mkdb [campaign1 50] [giver1 50 1] [donation1 PaymentStatus.completed])
      1 = some PaymentStatus.completed ∧
    (result_state (update_donation_status
      (mkdb [campaign1 50] [giver1 50 1] [donation1 PaymentStatus.completed])
      1 PaymentStatus.refunded none alice)).map
        (fun s => (campaign_amount s 1, giver_total s 1, giver_count s 1))
      = some (some 50, some 50, some 1) := by
  constructor
  · decide
  · decide

/-- C2 (amended): COMPLETED→REFUNDED only rewrites the donation's status;
the campaign table and the giver-profile table are left completely
unchanged — no amount is subtracted and no count is decremented. -/
theorem C2_amended (db : DB) (did : Nat) (pid : Option String) (u : User)
    (d : Donation) (gp : GiverProfile)
    (hd : db.donations.find? (fun x => x.id == did) = some d)
    (hg : db.giver_profiles.find? (fun g => g.user_id == u.id) = some gp)
    (hauth : gp.id = d.giver_id)
    (hst : d.payment_status = PaymentStatus.completed) :
    ∃ db2 d1,
      update_donation_status db did PaymentStatus.refunded pid u =
        .ok (db2, d1) ∧
      db2.campaigns = db.campaigns ∧
      db2.giver_profiles = db.giver_profiles ∧
      d1.payment_status = PaymentStatus.refunded := by
  have hguard : (d.payment_status != PaymentStatus.completed &&
      (PaymentStatus.refunded == PaymentStatus.completed)) = false := by
    rw [hst]
    rfl
  have hb := update_donation_status_no_aggregates db did PaymentStatus.refunded
    pid u d gp hd hg hauth hguard
  exact ⟨_, _, hb, rfl, rfl, apply_status_update_status d _ pid⟩

/-- C2 witness: the concrete refund call of the counterexample store
succeeds via the amended theorem. -/
theorem C2_amended_witness :
    is_ok (update_donation_status
      (mkdb [campaign1 50] [giver1 50 1] [donation1 PaymentStatus.completed])
      1 PaymentStatus.refunded none alice) = true := by
  obtain ⟨db2, d1, heq, -, -, -⟩ :=
    C2_amended (mkdb [campaign1 50] [giver1 50 1] [donation1 PaymentStatus.completed])
      1 none alice (donation1 PaymentStatus.completed) (giver1 50 1)
      (by rfl) (by rfl) rfl rfl
  rw [heq]
  rfl

/-- C3 counterexample: the sequence COMPLETED, FAILED, COMPLETED on the
same fresh donation of 50 succeeds end to end and applies the aggregate
mutation twice: the campaign total and giver total end at 100 and the
donation count at 2, so the completion effect is not exactly-once over
sequences of calls and duplicate completions are not rejected. -/
theorem C3_counterexample :
    c3_chain.toOption.map
      (fun dbf => (campaign_amount dbf 1, giver_total dbf 1, giver_count dbf 1))
      = some (some 100, some 100, some 2) := by
  decide

/-- C3 (amended): a completion request on a donation whose stored status
is not COMPLETED adds the amount to the campaign total and giver total
and increments the donation count by exactly one, and a direct duplicate
completion request (stored status already COMPLETED) leaves every
aggregate untouched — but such a duplicate succeeds rather than being
rejected, and the once-only guarantee holds only against the current
stored status, not per donation over its whole history. -/
theorem C3_amended :
    (∀ (db : DB) (did : Nat) (pid : Option String) (u : User) (d : Donation)
       (gp : GiverProfile) (c : Campaign) (g : GiverProfile),
       db.donations.find? (fun x => x.id == did) = some d →
       db.giver_profiles.find? (fun x => x.user_id == u.id) = some gp →
       gp.id = d.giver_id →
       d.payment_status ≠ PaymentStatus.completed →
       db.campaigns.find? (fun x => x.id == d.campaign_id) = some c →
       db.giver_profiles.find? (fun x => x.id == d.giver_id) = some g →
       ∃ db2 d1,
         update_donation_status db did PaymentStatus.completed pid u =
           .ok (db2, d1) ∧
         campaign_amount db2 d.campaign_id =
           some (c.current_amount + d.amount) ∧
         giver_total db2 d.giver_id = some (g.total_donated + d.amount) ∧
         giver_count db2 d.giver_id = some (g.donation_count + 1) ∧
         d1.payment_status = PaymentStatus.completed) ∧
    (∀ (db : DB) (did : Nat) (pid : Option String) (u : User) (d : Donation)
       (gp : GiverProfile),
       db.donations.find? (fun x => x.id == did) = some d →
       db.giver_profiles.find? (fun x => x.user_id == u.id) = some gp →
       gp.id = d.giver_id →
       d.payment_status = PaymentStatus.completed →
       ∃ db2 d1,
         update_donation_status db did PaymentStatus.completed pid u =
           .ok (db2, d1) ∧
         db2.campaigns = db.campaigns ∧
         db2.giver_profiles = db.giver_profiles) := by
  constructor
  · intro db did pid u d gp c g hd hg hauth hpend hc hgg
    have hguard : (d.payment_status != PaymentStatus.completed &&
        (PaymentStatus.completed == PaymentStatus.completed)) = true := by
      revert hpend
      cases d.payment_status <;> decide
    have hb := update_donation_status_completes db did PaymentStatus.completed
      pid u d gp hd hg hauth hguard
    have hcid := apply_status_update_campaign_id d PaymentStatus.completed pid
    have hgid := apply_status_update_giver_id d PaymentStatus.completed pid
    have hamt := apply_status_update_amount d PaymentStatus.completed pid
    have hc1 : (({ db with donations := db.donations.map (fun x =>
          if x.id == did then apply_status_update x PaymentStatus.completed pid
          else x) } : DB).campaigns).find?
        (fun x =>
          x.id == (apply_status_update d PaymentStatus.completed pid).campaign_id)
        = some c := by
      rw [hcid]
      exact hc
    have hg1 : (({ db with donations := db.donations.map (fun x =>
          if x.id == did then apply_status_update x PaymentStatus.completed pid
          else x) } : DB).giver_profiles).find?
        (fun x =>
          x.id == (apply_status_update d PaymentStatus.completed pid).giver_id)
        = some g := by
      rw [hgid]
      exact hgg
    have hagg := update_donation_aggregates_amounts _ _ c g hc1 hg1
    rw [hcid, hgid, hamt] at hagg
    exact ⟨_, _, hb, hagg.1, hagg.2.1, hagg.2.2,
      apply_status_update_status d _ pid⟩
  · intro db did pid u d gp hd hg hauth hst
    have hguard : (d.payment_status != PaymentStatus.completed &&
        (PaymentStatus.completed == PaymentStatus.completed)) = false := by
      rw [hst]
      rfl
    have hb := update_donation_status_no_aggregates db did
      PaymentStatus.completed pid u d gp hd hg hauth hguard
    exact ⟨_, _, hb, rfl, rfl⟩

/-- C3 witness: completing a fresh PENDING donation of 50 raises the
campaign total to 50, and a direct duplicate completion succeeds while
leaving the aggregates alone. -/
theorem C3_amended_witness :
    (result_state (update_donation_status
      (mkdb [campaign1 0] [giver1 0 0] [donation1 PaymentStatus.pending])
      1 PaymentStatus.completed none alice)).map (fun s => campaign_amount s 1)
      = some (some 50) ∧
    is_ok (update_donation_status
      (mkdb [campaign1 50] [giver1 50 1] [donation1 PaymentStatus.completed])
      1 PaymentStatus.completed none alice) = true := by
  constructor
  · obtain ⟨db2, d1, heq, hca, -, -, -⟩ :=
      C3_amended.1 (mkdb [campaign1 0] [giver1 0 0] [donation1 PaymentStatus.pending])
        1 none alice (donation1 PaymentStatus.pending) (giver1 0 0)
        (campaign1 0) (giver1 0 0) (by rfl) (by rfl) rfl (by decide)
        (by rfl) (by rfl)
    rw [heq]
    simpa [result_state] using hca
  · obtain ⟨db2, d1, heq, -, -⟩ :=
      C3_amended.2 (mkdb [campaign1 50] [giver1 50 1] [donation1 PaymentStatus.completed])
        1 none alice (donation1 PaymentStatus.completed) (giver1 50 1)
        (by rfl) (by rfl) rfl rfl
    rw [heq]
    rfl

/-- C6 counterexample: completing a PENDING donation whose campaign row is
missing succeeds (no NotFound): the campaign half of the aggregate update
is silently skipped while the giver half is still applied, so part of the
aggregate update is dropped without any error. -/
theorem C6_counterexample :
    is_ok (update_donation_status
      (mkdb [] [giver1 0 0] [donation1 PaymentStatus.pending])
      1 PaymentStatus.completed none alice) = true ∧
    (result_state (update_donation_status
      (mkdb [] [giver1 0 0] [donation1 PaymentStatus.pending])
      1 PaymentStatus.completed none alice)).map
        (fun s => (s.campaigns, giver_total s 1, giver_count s 1))
      = some ([], some 50, some 1) := by
  constructor
  · decide
  · decide

/-- C6 (amended): only a missing donation row produces NotFound (404); a
caller whose giver profile cannot be resolved gets 403 Forbidden, not
NotFound; and a missing campaign row during the aggregate update is
silently skipped — the call still succeeds and the campaign table is left
as it was. -/
theorem C6_amended :
    (∀ (db : DB) (did : Nat) (ps : PaymentStatus) (pid : Option String)
       (u : User),
       db.donations.find? (fun x => x.id == did) = none →
       update_donation_status db did ps pid u =
         .error { status := 404, detail := "Donation not found" }) ∧
    (∀ (db : DB) (did : Nat) (ps : PaymentStatus) (pid : Option String)
       (u : User) (d : Donation),
       db.donations.find? (fun x => x.id == did) = some d →
       db.giver_profiles.find? (fun g => g.user_id == u.id) = none →
       update_donation_status db did ps pid u =
         .error { status := 403,
                  detail := "Not authorized to update this donation" }) ∧
    (∀ (db : DB) (did : Nat) (ps : PaymentStatus) (pid : Option String)
       (u : User) (d : Donation) (gp : GiverProfile),
       db.donations.find? (fun x => x.id == did) = some d →
       db.giver_profiles.find? (fun g => g.user_id == u.id) = some gp →
       gp.id = d.giver_id →
       db.campaigns.find? (fun x => x.id == d.campaign_id) = none →
       ∃ db2 d1,
         update_donation_status db did ps pid u = .ok (db2, d1) ∧
         db2.campaigns = db.campaigns) := by
  refine ⟨?_, ?_, ?_⟩
  · intro db did ps pid u hd
    unfold update_donation_status
    rw [hd]
  · intro db did ps pid u d hd hg
    unfold update_donation_status
    rw [hd, hg]
  · intro db did ps pid u d gp hd hg hauth hcm
    cases hguard : (d.payment_status != PaymentStatus.completed &&
        (ps == PaymentStatus.completed)) with
    | false =>
      have hb := update_donation_status_no_aggregates db did ps pid u d gp
        hd hg hauth hguard
      exact ⟨_, _, hb, rfl⟩
    | true =>
      have hb := update_donation_status_completes db did ps pid u d gp
        hd hg hauth hguard
      refine ⟨_, _, hb, ?_⟩
      have hcm1 : (({ db with donations := db.donations.map (fun x =>
            if x.id == did then apply_status_update x ps pid else x) } : DB)
            |>.campaigns).find?
          (fun x => x.id == (apply_status_update d ps pid).campaign_id)
          = none := by
        rw [apply_status_update_campaign_id]
        exact hcm
      unfold update_donation_aggregates
      rw [apply_campaign_aggregate_missing _ _ hcm1,
        apply_giver_aggregate_campaigns]

/-- C6 witness: the missing-donation 404, the missing-profile 403 and the
missing-campaign silent success, each on a concrete store. -/
theorem C6_amended_witness :
    update_donation_status (mkdb [] [] []) 1 PaymentStatus.completed none
      alice = .error { status := 404, detail := "Donation not found" } ∧
    update_donation_status (mkdb [] [] [donation1 PaymentStatus.pending]) 1
      PaymentStatus.completed none alice =
      .error { status := 403,
               detail := "Not authorized to update this donation" } ∧
    is_ok (update_donation_status
      (mkdb [] [giver1 0 0] [donation1 PaymentStatus.failed])
      1 PaymentStatus.pending none alice) = true := by
  refine ⟨?_, ?_, ?_⟩
  · exact C6_amended.1 (mkdb [] [] []) 1 PaymentStatus.completed none alice
      (by rfl)
  · exact C6_amended.2.1 (mkdb [] [] [donation1 PaymentStatus.pending]) 1
      PaymentStatus.completed none alice (donation1 PaymentStatus.pending)
      (by rfl) (by rfl)
  · obtain ⟨db2, d1, heq, -⟩ :=
      C6_amended.2.2 (mkdb [] [giver1 0 0] [donation1 PaymentStatus.failed]) 1
        PaymentStatus.pending none alice (donation1 PaymentStatus.failed)
        (giver1 0 0) (by rfl) (by rfl) rfl (by rfl)
    rw [heq]
    rfl

/-- C5 counterexample: the password aaaaaaaa fails the Credential Vault
strength rules (no uppercase letter), yet registration with it succeeds —
the handler never invokes `validate_password_strength`, so no
WeakPassword failure occurs. -/
theorem C5_counterexample :
    (validate_password_strength "aaaaaaaa").1 = false ∧
    is_ok (register_endpoint accept_any_email empty_db
      { email := "new@example.com", username := "newuser",
        password := "aaaaaaaa", full_name := none }) = true := by
  constructor
  · decide
  · decide

/-- C5 (amended): of the strength rules only the schema's minimum length
of 8 runs before the handler (as request validation, 422); passwords that
fail the other `validate_password_strength` rules (uppercase, lowercase,
digit, deny-list) are accepted, since registration never calls that
function. A colliding username or email is still reported with its own
specific 400 message, the username check running before the email
check. -/
theorem C5_amended :
    (∀ (ev : String → Bool) (db : DB) (ud : UserCreate),
      userCreate_schema_ok ev ud = true →
      (validate_password_strength ud.password).1 = false →
      get_user_by_username db ud.username = none →
      get_user_by_email db ud.email = none →
      is_ok (register_endpoint ev db ud) = true) ∧
    (∀ (ev : String → Bool) (db : DB) (ud : UserCreate),
      ud.password.length < 8 →
      register_endpoint ev db ud =
        .error { status := 422, detail := "Validation error" }) ∧
    (∀ (ev : String → Bool) (db : DB) (ud : UserCreate) (u : User),
      userCreate_schema_ok ev ud = true →
      get_user_by_username db ud.username = some u →
      register_endpoint ev db ud =
        .error { status := 400, detail := "Username already registered" }) ∧
    (∀ (ev : String → Bool) (db : DB) (ud : UserCreate) (u : User),
      userCreate_schema_ok ev ud = true →
      get_user_by_username db ud.username = none →
      get_user_by_email db ud.email = some u →
      register_endpoint ev db ud =
        .error { status := 400, detail := "Email already registered" }) := by
  refine ⟨?_, ?_, ?_, ?_⟩
  · intro ev db ud hschema hweak hu he
    unfold register_endpoint register_user
    rw [hschema]
    simp only [if_true]
    rw [hu, he]
    rfl
  · intro ev db ud hlen
    have h8 : decide (8 ≤ ud.password.length) = false :=
      decide_eq_false (by omega)
    unfold register_endpoint userCreate_schema_ok
    simp [h8]
  · intro ev db ud u hschema hu
    unfold register_endpoint register_user
    rw [hschema]
    simp only [if_true]
    rw [hu]
  · intro ev db ud u hschema hu he
    unfold register_endpoint register_user
    rw [hschema]
    simp only [if_true]
    rw [hu, he]

/-- C5 witness: a weak-but-length-8 password registers successfully on an
empty store; a short password is rejected 422; a taken username and a
taken email each produce their specific 400 message. -/
theorem C5_amended_witness :
    is_ok (register_endpoint accept_any_email empty_db
      { email := "w@example.com", username := "weakuser",
        password := "lowercase1", full_name := none }) = true ∧
    register_endpoint accept_any_email empty_db
      { email := "x@example.com", username := "abc",
        password := "short", full_name := none } =
      .error { status := 422, detail := "Validation error" } ∧
    register_endpoint accept_any_email (mkdb [] [] [])
      { email := "fresh@example.com", username := "alice",
        password := "Whatever123", full_name := none } =
      .error { status := 400, detail := "Username already registered" } ∧
    register_endpoint accept_any_email (mkdb [] [] [])
      { email := "alice@example.com", username := "freshname",
        password := "Whatever123", full_name := none } =
      .error { status := 400, detail := "Email already registered" } :=
  ⟨C5_amended.1 accept_any_email empty_db
    { email := "w@example.com", username := "weakuser",
      password := "lowercase1", full_name := none }
    (by decide) (by decide) (by rfl) (by rfl),
   C5_amended.2.1 accept_any_email empty_db
    { email := "x@example.com", username := "abc",
      password := "short", full_name := none } (by decide),
   C5_amended.2.2.1 accept_any_email (mkdb [] [] [])
    { email := "fresh@example.com", username := "alice",
      password := "Whatever123", full_name := none } alice
    (by decide) (by rfl),
   C5_amended.2.2.2 accept_any_email (mkdb [] [] [])
    { email := "alice@example.com", username := "freshname",
      password := "Whatever123", full_name := none } alice
    (by decide) (by rfl) (by rfl)⟩
